import Mathlib

/-
  Shallow embedding of the oresat-star-tracker-software control subsystem
  (src/oresat_star_tracker/star_tracker_service.py, camera.py, lost.py),
  with theorems settling the behavioural claims about the service.
-/

namespace StarTracker

/-- The star tracker service states (class State, star_tracker_service.py lines 17-26). -/
inductive State
  | off
  | boot
  | standby
  | lowPower
  | starTrack
  | captureOnly
  | error
deriving DecidableEq, Fintype

/-- Numeric values of the states (OFF = 0x0 ... ERROR = 0xFF). -/
def stateValue : State → ℕ
  | State.off => 0
  | State.boot => 1
  | State.standby => 2
  | State.lowPower => 3
  | State.starTrack => 4
  | State.captureOnly => 5
  | State.error => 255

/-- Python State(value): the IntEnum constructor, none models the ValueError raised
on a value that is not a member. -/
def State.ofValue : ℕ → Option State
  | 0 => some State.off
  | 1 => some State.boot
  | 2 => some State.standby
  | 3 => some State.lowPower
  | 4 => some State.starTrack
  | 5 => some State.captureOnly
  | 255 => some State.error
  | _ => none

/-- STATE_TRANSISTIONS (star_tracker_service.py lines 29-39): the legal externally
commanded transitions out of each state. -/
def STATE_TRANSISTIONS : State → List State
  | State.off => [State.boot]
  | State.boot => [State.standby]
  | State.standby => [State.lowPower, State.starTrack, State.captureOnly]
  | State.lowPower => [State.standby, State.starTrack, State.captureOnly]
  | State.starTrack => [State.standby, State.lowPower, State.captureOnly, State.error]
  | State.captureOnly => [State.standby, State.lowPower, State.starTrack, State.error]
  | State.error => [State.off]

/-- Camera states (camera.py lines 18-23). -/
inductive CameraState
  | standby
  | running
  | lockout
  | notFound
  | error
deriving DecidableEq, Fintype

/-- Lines 424-445 of on_write_status: given the current state and the candidate
new_status, return the state after the guards (no-op on equality, no command out
of BOOT, transition-table membership check) and the final assignment. -/
def commitStatus (cur ns : State) : State :=
  if ns = cur then cur
  else if cur = State.boot then cur
  else if ns ∈ STATE_TRANSISTIONS cur then ns
  else cur

/-- on_write_status (star_tracker_service.py lines 399-445): the SDO write callback
for the status variable. Returns the service state after the write. The camera
LOCKOUT branch only logs, leaving new_status equal to the current state; the camera
ERROR branch replaces the requested value with ERROR; otherwise State(value) is
attempted and a ValueError returns with no change. -/
def on_write_status (cam : CameraState) (cur : State) (value : ℕ) : State :=
  if cam = CameraState.lockout then commitStatus cur cur
  else if cam = CameraState.error then commitStatus cur State.error
  else
    match State.ofValue value with
    | none => cur
    | some ns => commitStatus cur ns

/-- The BOOT branch of on_loop (star_tracker_service.py lines 365-374): with the
service in BOOT, a tick at monotonic time t commits STANDBY exactly when t
exceeds 70 seconds; otherwise the else branch sleeps and the state is unchanged. -/
def on_loop_boot (t : ℚ) : State :=
  if 70 < t then State.standby else State.boot

/-- An exception instance reaching on_loop_error; the kind records which class the
instance belongs to. -/
inductive PyError
  | cameraError
  | valueError
  | other
deriving DecidableEq, Fintype

/-- Python `error is CameraError` (line 385): identity comparison of an exception
instance against the class object, which never holds for an instance. -/
def error_is_CameraError_class (_e : PyError) : Bool := false

/-- Python `error is ValueError` (line 388): same identity comparison, never holds. -/
def error_is_ValueError_class (_e : PyError) : Bool := false

/-- on_loop_error (star_tracker_service.py lines 376-392). The first branch would
assign ERROR, the second and third only log, and all three fall through to the
unconditional final statement `self._state = State.ERROR` (line 392). -/
def on_loop_error (_cur : State) (e : PyError) : State :=
  if error_is_CameraError_class e then State.error
  else if error_is_ValueError_class e then State.error
  else State.error

/-- Outcome of one camera.capture call inside _star_track. -/
inductive CaptureOutcome
  | ok
  | raises
deriving DecidableEq, Fintype

/-- Outcome of lost.identify inside _star_track. -/
inductive SolveOutcome
  | ok
  | raises (e : PyError)
deriving DecidableEq

/-- One STAR_TRACK tick of the service: _star_track (lines 245-283) composed with
the runtime convention that an exception escaping on_loop is handed to
on_loop_error. A capture exception is caught inside _star_track, which assigns
ERROR and returns; an exception from lost.identify is not caught anywhere in
_star_track or on_loop, so it escapes and on_loop_error runs; on success the
state becomes STANDBY when the capture delay is zero and stays STAR_TRACK
otherwise (the call only sleeps). -/
def star_track_tick (cap : CaptureOutcome) (sol : SolveOutcome) (delay : ℚ) : State :=
  match cap with
  | CaptureOutcome.raises => State.error
  | CaptureOutcome.ok =>
    match sol with
    | SolveOutcome.raises e => on_loop_error State.starTrack e
    | SolveOutcome.ok => if delay = 0 then State.standby else State.starTrack

/-- MAX_CAPTURE_RETRIES (star_tracker_service.py line 51). -/
def MAX_CAPTURE_RETRIES : ℕ := 10

/-- What one camera.capture call yields inside _capture_only_mode: either an
exception, or a frame together with the verdict of _filter on that frame. -/
inductive CapOutcome
  | raises
  | frame (passesFilter : Bool)
deriving DecidableEq

/-- How the inner retry loop of _capture_only_mode ends. -/
inductive SlotResult
  | gotFrame
  | exhausted
  | cameraError
deriving DecidableEq

/-- The inner retry loop of _capture_only_mode (lines 300-329). cam gives the
outcome of the k-th capture call of the session; callIdx is the index of the
next capture call; fuel is MAX_CAPTURE_RETRIES minus the Python retries counter,
so the loop is entered with fuel = MAX_CAPTURE_RETRIES and fuel 0 means the
while condition retries < MAX_CAPTURE_RETRIES failed, leaving capture_data None.
A capture exception assigns ERROR and returns from the whole function; a frame
that the filter passes (or a disabled filter) ends the slot; otherwise retries
is incremented, a 10 ms sleep runs, and the loop repeats. Returns the number of
capture calls made in this slot and the outcome. -/
def retry_loop (cam : ℕ → CapOutcome) (filterEnable : Bool) : ℕ → ℕ → ℕ × SlotResult
  | _, 0 => (0, SlotResult.exhausted)
  | callIdx, fuel + 1 =>
    match cam callIdx with
    | CapOutcome.raises => (1, SlotResult.cameraError)
    | CapOutcome.frame passes =>
      if !filterEnable || passes then (1, SlotResult.gotFrame)
      else
        let rest := retry_loop cam filterEnable (callIdx + 1) fuel
        (rest.1 + 1, rest.2)

/-- Observable result of a _capture_only_mode session: total camera capture calls,
calls to fread_cache.add, images taken (img_count), and the service state on exit. -/
structure COResult where
  captureCalls : ℕ
  cacheAdds : ℕ
  imgCount : ℕ
  finalState : State
deriving DecidableEq

/-- The outer while loop of _capture_only_mode (lines 296-355). elapsed n is the
value of time() minus start_timestamp at the n-th evaluation of the loop
condition; fuel bounds the number of outer iterations the model unfolds (none is
returned when the bound is hit, so every some result is the behaviour of the
code). On cameraError the function returns at once with state ERROR; on
exhausted the warning is logged and the outer loop breaks; on gotFrame the
image counter advances, fread_cache.add runs when save_captures is set, and the
loop continues after the delay sleep. On loop exit the state is set to STANDBY
(lines 354-355). -/
def capture_only_loop (cam : ℕ → CapOutcome) (filterEnable save : Bool)
    (duration : ℚ) (numImages : ℕ) (elapsed : ℕ → ℚ) :
    ℕ → ℕ → ℕ → ℕ → ℕ → Option COResult
  | 0, _, _, _, _ => none
  | fuel + 1, iter, calls, adds, imgs =>
    if elapsed iter < duration ∧ (numImages = 0 ∨ imgs < numImages) then
      let slot := retry_loop cam filterEnable calls MAX_CAPTURE_RETRIES
      match slot.2 with
      | SlotResult.cameraError => some ⟨calls + slot.1, adds, imgs, State.error⟩
      | SlotResult.exhausted => some ⟨calls + slot.1, adds, imgs, State.standby⟩
      | SlotResult.gotFrame =>
        capture_only_loop cam filterEnable save duration numImages elapsed fuel
          (iter + 1) (calls + slot.1) (adds + if save then 1 else 0) (imgs + 1)
    else
      some ⟨calls, adds, imgs, State.standby⟩

/-- One _capture_only_mode session (lines 286-355), starting with img_count 0. -/
def capture_only_mode (cam : ℕ → CapOutcome) (filterEnable save : Bool)
    (duration : ℚ) (numImages : ℕ) (elapsed : ℕ → ℚ) (fuel : ℕ) : Option COResult :=
  capture_only_loop cam filterEnable save duration numImages elapsed fuel 0 0 0 0

/-- np.mean of np.where(gray > bound, 1, 0) times 100 (lines 225-227): the mean of
the bright indicator image over the greyscale pixels, as a rational. -/
def lit_mean (gray : List ℕ) (bound : ℕ) : ℚ :=
  (gray.map fun p => if bound < p then (1 : ℚ) else 0).sum / gray.length * 100

/-- np.mean of np.where(gray < bound, 1, 0) times 100 (lines 236-238): the mean of
the dim indicator image over the greyscale pixels. -/
def dim_mean (gray : List ℕ) (bound : ℕ) : ℚ :=
  (gray.map fun p => if p < bound then (1 : ℚ) else 0).sum / gray.length * 100

/-- _filter (star_tracker_service.py lines 206-243), acting on the greyscale image
gray produced by the cv2.cvtColor BGR2GRAY call of line 220: accept outright when
both bounds are zero; reject when the lower bound is set and lit_mean is below
lower_percentage; reject when the upper bound is set and dim_mean is below
upper_percentage; otherwise accept. -/
def filter_frame (lower upper lowerPct upperPct : ℕ) (gray : List ℕ) : Bool :=
  if lower = 0 ∧ upper = 0 then true
  else if lower ≠ 0 ∧ lit_mean gray lower < lowerPct then false
  else if upper ≠ 0 ∧ dim_mean gray upper < upperPct then false
  else true

/-- The brightness filter as the specification words it: accept unconditionally
when both bounds are zero; when lower_bound is positive, reject exactly when the
fraction of pixels strictly greater than lower_bound, multiplied by 100, is less
than lower_percentage; when upper_bound is positive, reject exactly when the
fraction of pixels strictly less than upper_bound, multiplied by 100, is less
than upper_percentage; otherwise accept. -/
def filter_spec (lower upper lowerPct upperPct : ℕ) (gray : List ℕ) : Bool :=
  if lower = 0 ∧ upper = 0 then true
  else if 0 < lower ∧ ((gray.countP fun p => decide (lower < p)) : ℚ) / gray.length * 100 < lowerPct then false
  else if 0 < upper ∧ ((gray.countP fun p => decide (p < upper)) : ℚ) / gray.length * 100 < upperPct then false
  else true

/-- A pixel of a colour frame in channel order (blue, green, red), the order the
camera and cv2 use. -/
abbrev Pixel := ℕ × ℕ × ℕ

/-- A colour frame as its list of rows. -/
abbrev Image := List (List Pixel)

/-- Python slicing with step two, xs[::2]: every other element starting at 0. -/
def every_other : List α → List α
  | [] => []
  | [a] => [a]
  | a :: _ :: rest => a :: every_other rest

/-- data[::downscale_factor, ::downscale_factor] with downscale_factor = 2
(lines 463-464): every other row, then every other pixel of each kept row. -/
def downscale2 (img : Image) : Image := (every_other img).map every_other

/-- cv2.cvtColor COLOR_BGR2RGB (line 468): swap the blue and red channels of
every pixel. -/
def bgr_to_rgb (img : Image) : Image :=
  img.map (List.map fun px => (px.2.2, px.2.1, px.1))

/-- The image handed to cv2.imencode by _on_read_last_display_image: the last
capture downscaled by two in both dimensions, then converted from BGR to RGB. -/
def display_transform (img : Image) : Image := bgr_to_rgb (downscale2 img)

/-- _on_read_last_display_image (star_tracker_service.py lines 447-475), with the
JPEG encoder cv2.imencode abstracted as enc: with no prior capture the callback
returns the empty byte string; otherwise it returns the encoding of the
downscaled, RGB-converted copy of the last capture. -/
def last_display_image (enc : Image → List ℕ) (lastCapture : Option Image) : List ℕ :=
  match lastCapture with
  | none => []
  | some d => enc (display_transform d)

/-- Every commitStatus result is the current state or a table entry for it. -/
theorem commitStatus_eq_or_mem (cur ns : State) :
    commitStatus cur ns = cur ∨ commitStatus cur ns ∈ STATE_TRANSISTIONS cur := by
  unfold commitStatus
  split_ifs with h1 h2 h3
  · exact Or.inl rfl
  · exact Or.inl rfl
  · exact Or.inr h3
  · exact Or.inl rfl

/-- C1: for every call to on_write_status, with any current status, camera state
and written value, the status afterwards is either the current status itself or a
member of STATE_TRANSISTIONS at that status; no externally commanded transition
outside the table ever succeeds. -/
theorem c1_write_status_respects_table (cam : CameraState) (cur : State) (value : ℕ) :
    on_write_status cam cur value = cur ∨
      on_write_status cam cur value ∈ STATE_TRANSISTIONS cur := by
  unfold on_write_status
  split_ifs
  · exact commitStatus_eq_or_mem cur cur
  · exact commitStatus_eq_or_mem cur State.error
  · cases State.ofValue value with
    | none => exact Or.inl rfl
    | some ns => exact commitStatus_eq_or_mem cur ns

/-- C2: with the service in STAR_TRACK, a successful capture followed by an
exception from lost.identify ends the tick in ERROR for every exception kind and
every capture delay, because the exception escapes _star_track and on_loop and
on_loop_error unconditionally assigns ERROR; the status is neither left at
STAR_TRACK nor moved to STANDBY, contradicting the claim that solver faults never
commit ERROR. -/
theorem c2_solver_raise_commits_error (e : PyError) (delay : ℚ) :
    star_track_tick CaptureOutcome.ok (SolveOutcome.raises e) delay = State.error ∧
    State.error ≠ State.starTrack ∧ State.error ≠ State.standby :=
  ⟨rfl, by decide, by decide⟩

/-- C3 counterexample: with the camera in ERROR and the service in STANDBY, a
write requesting STAR_TRACK (value 4) leaves the status STANDBY rather than
forcing ERROR, because ERROR is not a table transition out of STANDBY. -/
theorem c3_counterexample :
    stateValue State.starTrack = 4 ∧
    on_write_status CameraState.error State.standby 4 = State.standby ∧
    State.standby ≠ State.error := by decide

/-- C3 amended: when the camera reports ERROR at status-command time, the
requested value is ignored and replaced by ERROR, but the write commits ERROR
only when the current status is STAR_TRACK or CAPTURE_ONLY (or is already
ERROR); from every other status the write is rejected by the transition table
and the status is unchanged. -/
theorem c3_amended (cur : State) (value : ℕ) :
    on_write_status CameraState.error cur value =
      if cur = State.starTrack ∨ cur = State.captureOnly ∨ cur = State.error
      then State.error else cur := by
  cases cur <;> rfl

/-- C4 counterexample: at wall-clock time exactly 70 seconds since start, which
satisfies the claim's bound of at least 70 seconds, a loop tick in BOOT does not
commit STANDBY, because the code requires time strictly greater than 70. -/
theorem c4_counterexample :
    (70 : ℚ) ≥ 70 ∧ on_loop_boot 70 = State.boot ∧ State.boot ≠ State.standby :=
  ⟨le_refl _, by rw [on_loop_boot, if_neg (lt_irrefl (70 : ℚ))], by decide⟩

/-- C4 amended: while the service status is BOOT no external status-command write
changes the status to any other value, and a loop tick commits the BOOT to
STANDBY transition exactly when wall-clock time since process start is strictly
greater than 70 seconds. -/
theorem c4_amended :
    (∀ (cam : CameraState) (value : ℕ),
        on_write_status cam State.boot value = State.boot) ∧
    (∀ t : ℚ, on_loop_boot t = State.standby ↔ 70 < t) := by
  constructor
  · intro cam value
    have hb : ∀ ns, commitStatus State.boot ns = State.boot := by
      intro ns
      unfold commitStatus
      split_ifs with h1 h2 h3 <;> simp_all
    unfold on_write_status
    split_ifs
    · exact hb State.boot
    · exact hb State.error
    · cases State.ofValue value with
      | none => rfl
      | some ns => exact hb ns
  · intro t
    unfold on_loop_boot
    split_ifs with h
    · exact iff_of_true rfl h
    · exact iff_of_false (by decide) h

/-- C5 counterexample: with the service in STAR_TRACK and the camera in ERROR,
writing the value of STAR_TRACK itself (4, equal to the current status) changes
the status to ERROR, so the write is not a no-op. -/
theorem c5_counterexample :
    stateValue State.starTrack = 4 ∧
    on_write_status CameraState.error State.starTrack 4 = State.error ∧
    State.error ≠ State.starTrack := by decide

/-- C5 amended: writing a status value equal to the current status leaves the
status unchanged for every current status whenever the camera is not in the
ERROR state; with the camera in ERROR the requested value is replaced by ERROR,
which can commit (see the counterexample). -/
theorem c5_amended :
    ∀ (cam : CameraState) (cur : State), cam ≠ CameraState.error →
      on_write_status cam cur (stateValue cur) = cur := by decide

/-- Witness for C5 amended at a concrete input. -/
theorem c5_witness :
    on_write_status CameraState.running State.standby (stateValue State.standby) =
      State.standby :=
  c5_amended CameraState.running State.standby (by decide)

/-- C10: every exception reaching on_loop_error leaves the service in ERROR,
whatever the current state and the exception kind; the identity comparisons of
the instance against the CameraError and ValueError classes never hold, and the
final unconditional assignment makes every path end in ERROR. -/
theorem c10_on_loop_error_always_error :
    ∀ (cur : State) (e : PyError),
      on_loop_error cur e = State.error ∧
      error_is_CameraError_class e = false ∧
      error_is_ValueError_class e = false := by decide

/-- C6: if the brightness filter is enabled and rejects every frame the camera
returns, a capture-only session that starts within its duration budget makes
exactly MAX_CAPTURE_RETRIES = 10 camera capture calls, makes zero calls to
fread_cache.add, takes zero images, and exits with service status STANDBY, for
every duration, image-count setting, save flag and outer-iteration bound. -/
theorem c6_filter_exhaustion_session (duration : ℚ) (numImages : ℕ) (save : Bool)
    (elapsed : ℕ → ℚ) (fuel : ℕ) (h : elapsed 0 < duration) :
    capture_only_mode (fun _ => CapOutcome.frame false) true save duration numImages
      elapsed (fuel + 1) = some ⟨MAX_CAPTURE_RETRIES, 0, 0, State.standby⟩ := by
  have hcond : elapsed 0 < duration ∧ (numImages = 0 ∨ 0 < numImages) :=
    ⟨h, Nat.eq_zero_or_pos numImages⟩
  unfold capture_only_mode capture_only_loop
  rw [if_pos hcond]
  rfl

/-- Witness for C6 at a concrete session: duration 5, image count 1, saving on. -/
theorem c6_witness :
    (0 : ℚ) < 5 ∧
    capture_only_mode (fun _ => CapOutcome.frame false) true true 5 1 (fun _ => 0) 1 =
      some ⟨MAX_CAPTURE_RETRIES, 0, 0, State.standby⟩ :=
  ⟨by norm_num, c6_filter_exhaustion_session 5 1 true (fun _ => 0) 0 (by norm_num)⟩

/-- C7 counterexample: with a camera whose first capture raises, the retry loop
makes exactly one capture call and reports the camera error, and the whole
session ends at once in ERROR with a single capture call; no retry is issued on
a capture exception, contrary to the claim. -/
theorem c7_counterexample :
    retry_loop (fun _ => CapOutcome.raises) true 0 MAX_CAPTURE_RETRIES =
      (1, SlotResult.cameraError) ∧
    capture_only_mode (fun _ => CapOutcome.raises) true true 5 1 (fun _ => 0) 1 =
      some ⟨1, 0, 0, State.error⟩ := by
  constructor
  · rfl
  · unfold capture_only_mode capture_only_loop
    rw [if_pos]
    · rfl
    · exact ⟨by norm_num, Or.inr (by norm_num)⟩

/-- C7 amended: in a capture-only session, a retry (a further capture call within
the same image slot, out of the MAX_CAPTURE_RETRIES = 10 budget, with a sleep
between retries) is issued exactly when the filter is enabled and rejects the
captured frame; when the capture itself raises, the slot ends after that single
call with the camera-error outcome, which makes the session set ERROR and return
immediately. -/
theorem c7_amended (cam : ℕ → CapOutcome) (i fuel : ℕ) :
    (cam i = CapOutcome.raises →
      retry_loop cam true i (fuel + 1) = (1, SlotResult.cameraError)) ∧
    (cam i = CapOutcome.frame false →
      retry_loop cam true i (fuel + 1) =
        ((retry_loop cam true (i + 1) fuel).1 + 1,
          (retry_loop cam true (i + 1) fuel).2)) := by
  constructor
  · intro h
    simp [retry_loop, h]
  · intro h
    simp [retry_loop, h]

/-- A camera for the C7 witness: the first call raises, later calls return frames
that the filter rejects. -/
def camW : ℕ → CapOutcome :=
  fun k => if k = 0 then CapOutcome.raises else CapOutcome.frame false

/-- Witness for C7 amended: both branches applied to camW at concrete calls. -/
theorem c7_witness :
    retry_loop camW true 0 10 = (1, SlotResult.cameraError) ∧
    retry_loop camW true 1 10 =
      ((retry_loop camW true 2 9).1 + 1, (retry_loop camW true 2 9).2) :=
  ⟨(c7_amended camW 0 9).1 rfl, (c7_amended camW 1 9).2 rfl⟩

/-- The sum of a rational indicator image equals the count of pixels satisfying
the predicate. -/
theorem sum_indicator_eq_countP (P : ℕ → Prop) [DecidablePred P] (l : List ℕ) :
    (l.map fun p => if P p then (1 : ℚ) else 0).sum = l.countP fun p => decide (P p) := by
  induction l with
  | nil => simp
  | cons a t ih =>
    simp only [List.map_cons, List.sum_cons, List.countP_cons, ih]
    by_cases h : P a
    · simp only [h, if_true, decide_eq_true_eq]
      push_cast
      ring
    · simp [h]

/-- C8: the brightness filter of the service coincides, on every frame, with the
filter as the specification words it: accept unconditionally when both bounds are
zero; otherwise (on the greyscale image) with a positive lower bound reject
exactly when the fraction of pixels strictly greater than the lower bound,
multiplied by 100, is less than lower_percentage; with a positive upper bound
reject exactly when the fraction of pixels strictly less than the upper bound,
multiplied by 100, is less than upper_percentage; otherwise accept. -/
theorem c8_filter_matches_spec (lower upper lowerPct upperPct : ℕ) (gray : List ℕ)
    (hne : gray ≠ []) :
    filter_frame lower upper lowerPct upperPct gray =
      filter_spec lower upper lowerPct upperPct gray := by
  have h1 : lit_mean gray lower =
      ((gray.countP fun p => decide (lower < p)) : ℚ) / gray.length * 100 := by
    unfold lit_mean
    rw [sum_indicator_eq_countP (fun p => lower < p)]
  have h2 : dim_mean gray upper =
      ((gray.countP fun p => decide (p < upper)) : ℚ) / gray.length * 100 := by
    unfold dim_mean
    rw [sum_indicator_eq_countP (fun p => p < upper)]
  unfold filter_frame filter_spec
  rw [h1, h2]
  simp [Nat.pos_iff_ne_zero]

/-- Witness for C8 at a concrete frame and configuration. -/
theorem c8_witness :
    ([5] : List ℕ) ≠ [] ∧
    filter_frame 1 0 50 0 [5] = filter_spec 1 0 50 0 [5] :=
  ⟨by decide, c8_filter_matches_spec 1 0 50 0 [5] (by decide)⟩

/-- Step-two slicing keeps the ceiling of half the elements. -/
theorem length_every_other : ∀ (l : List α), (every_other l).length = (l.length + 1) / 2
  | [] => by simp [every_other]
  | [_] => by simp [every_other]
  | _ :: _ :: rest => by
    have ih := length_every_other rest
    simp only [every_other, List.length_cons, ih]
    omega

/-- Step-two slicing keeps only elements of the original list. -/
theorem mem_every_other : ∀ (l : List α) (x : α), x ∈ every_other l → x ∈ l
  | [], _, h => by simpa [every_other] using h
  | [a], x, h => by simpa [every_other] using h
  | a :: b :: rest, x, h => by
    simp only [every_other, List.mem_cons] at h
    rcases h with h | h
    · exact h ▸ List.mem_cons_self a (b :: rest)
    · exact List.mem_cons_of_mem a (List.mem_cons_of_mem b (mem_every_other rest x h))

/-- C9: a preview read with no prior successful capture returns the empty byte
string; after a capture of a frame of even dimensions (r, c), it returns the
non-empty encoder output, decodable back to the downscaled image, whose
dimensions are (r / 2, c / 2) and whose channel order is RGB (the image handed to
the encoder is the BGR-to-RGB conversion of the twofold downscale). The JPEG
codec cv2.imencode and its decoder are abstracted as enc and dec, assumed to
round-trip and to produce non-empty output on this image. -/
theorem c9_preview (enc : Image → List ℕ) (dec : List ℕ → Option Image) (d : Image)
    (r c : ℕ) (hr : d.length = r) (hc : ∀ row ∈ d, row.length = c)
    (hre : r % 2 = 0) (hce : c % 2 = 0)
    (henc : enc (display_transform d) ≠ [])
    (hdec : dec (enc (display_transform d)) = some (display_transform d)) :
    last_display_image enc none = [] ∧
    last_display_image enc (some d) ≠ [] ∧
    dec (last_display_image enc (some d)) = some (display_transform d) ∧
    (display_transform d).length = r / 2 ∧
    (∀ row ∈ display_transform d, row.length = c / 2) ∧
    display_transform d = bgr_to_rgb (downscale2 d) := by
  refine ⟨rfl, henc, hdec, ?_, ?_, rfl⟩
  · simp only [display_transform, bgr_to_rgb, downscale2, List.length_map,
      length_every_other, hr]
    omega
  · intro row hrow
    simp only [display_transform, bgr_to_rgb, downscale2, List.mem_map] at hrow
    obtain ⟨row2, ⟨row3, hrow3, hrow3eq⟩, hrow2eq⟩ := hrow
    have hlen3 : row3.length = c := hc row3 (mem_every_other d row3 hrow3)
    rw [← hrow2eq, ← hrow3eq]
    simp only [List.length_map, length_every_other, hlen3]
    omega

/-- A concrete 2 by 2 BGR frame for the C9 witness. -/
def imgW : Image := [[(1, 2, 3), (4, 5, 6)], [(7, 8, 9), (10, 11, 12)]]

/-- A concrete encoder for the C9 witness, non-empty on the transformed frame. -/
def encW : Image → List ℕ :=
  fun img => if img = display_transform imgW then [1] else []

/-- A concrete decoder for the C9 witness, inverting encW on the one image used. -/
def decW : List ℕ → Option Image := fun _ => some (display_transform imgW)

/-- Witness for C9 at the concrete frame imgW with the concrete codec. -/
theorem c9_witness :
    last_display_image encW none = [] ∧
    last_display_image encW (some imgW) ≠ [] ∧
    decW (last_display_image encW (some imgW)) = some (display_transform imgW) ∧
    (display_transform imgW).length = 2 / 2 ∧
    (∀ row ∈ display_transform imgW, row.length = 2 / 2) ∧
    display_transform imgW = bgr_to_rgb (downscale2 imgW) :=
  c9_preview encW decW imgW 2 2 (by decide)
    (by intro row hrow; simp only [imgW, List.mem_cons, List.not_mem_nil, or_false] at hrow
        rcases hrow with h | h <;> subst h <;> rfl)
    (by decide) (by decide) (by decide) (by decide)

end StarTracker
